import Mathlib

/-!
# sureOS boot-info parser and exception registry: a shallow embedding

This file embeds the two source files of the repository in Lean 4:

* `src/src/impl/kernel/multiboot2.c` — `check_multiboot2`, which validates the
  bootloader magic and alignment and then walks the multiboot2 tag stream,
  decoding each tag (the decoded fields are what the code prints);
* `src/src/impl/x86_64/exception.c` — the 23 default exception prologues and
  `exception_defaults`, which installs them into the plugbox registry.

Memory is a list of bytes (`List Nat`); reads beyond the list return 0.
Both loops of the parser are given explicit fuel so that their
(non-)termination behaviour on malformed input can be stated and proved.
-/

/-- One byte of the boot-info structure at address `a` (0 beyond the buffer). -/
def byteAt (m : List Nat) (a : Nat) : Nat := m.getD a 0 % 256

/-- Little-endian 32-bit read, as performed by `*(unsigned int *) p`. -/
def readU32 (m : List Nat) (a : Nat) : Nat :=
  byteAt m a + 256 * byteAt m (a + 1) + 65536 * byteAt m (a + 2) +
    16777216 * byteAt m (a + 3)

/-- Little-endian 64-bit read (`multiboot_uint64_t` fields `addr` and `len`). -/
def readU64 (m : List Nat) (a : Nat) : Nat :=
  readU32 m a + 4294967296 * readU32 m (a + 4)

/-- Bytes of a null-terminated string: read until the first 0 byte.
Past the end of the buffer every byte reads as 0, so the string stops at the
buffer end at the latest. -/
def cStrBytes : List Nat → List Nat
  | [] => []
  | b :: t => if b % 256 = 0 then [] else (b % 256) :: cStrBytes t

/-- Null-terminated string starting at address `a` (`%s` payloads). -/
def readCString (m : List Nat) (a : Nat) : List Nat := cStrBytes (m.drop a)

/-- Modelled from the spec: the multiboot2 protocol header
`boot/multiboot2.h` is not under `src/`; this is the protocol's bootloader
magic constant that `check_multiboot2` compares against. -/
def MULTIBOOT2_BOOTLOADER_MAGIC : Nat := 0x36d76289

/-- Modelled from the spec: tag type constants from the multiboot2 header
(not under `src/`), per the spec's variant table. -/
def MULTIBOOT_TAG_TYPE_END : Nat := 0

def MULTIBOOT_TAG_TYPE_CMDLINE : Nat := 1

def MULTIBOOT_TAG_TYPE_BOOT_LOADER_NAME : Nat := 2

def MULTIBOOT_TAG_TYPE_MODULE : Nat := 3

def MULTIBOOT_TAG_TYPE_BASIC_MEMINFO : Nat := 4

def MULTIBOOT_TAG_TYPE_BOOTDEV : Nat := 5

def MULTIBOOT_TAG_TYPE_MMAP : Nat := 6

/-- The cursor advance of the tag loop: `(tag->size + 7) & ~7` computed in
C `unsigned int` arithmetic (`~7` is the 32-bit mask `0xFFFFFFF8`). -/
def pad8 (s : Nat) : Nat := ((s + 7) % 4294967296) &&& 0xFFFFFFF8

/-- The fields of one memory-map entry that the code decodes (and prints):
`mmap->addr`, `mmap->len`, `mmap->type`. -/
structure MmapEntry where
  addr : Nat
  len : Nat
  region_type : Nat
deriving DecidableEq, Repr

/-- Decode one `multiboot_memory_map_t` at address `p`:
`addr` at offset 0 (u64), `len` at offset 8 (u64), `type` at offset 16 (u32). -/
def readMmapEntry (m : List Nat) (p : Nat) : MmapEntry :=
  { addr := readU64 m p, len := readU64 m (p + 8), region_type := readU32 m (p + 16) }

/-- The decoded content of one tag, as printed by the `switch` in
`check_multiboot2`. Unknown types yield `unknown` (the source's default case prints only type and size,
so those are the observables). -/
inductive TagRecord where
  | cmdline (str : List Nat)
  | bootLoaderName (str : List Nat)
  | moduleTag (mod_start mod_end : Nat) (cmdline : List Nat)
  | basicMeminfo (mem_lower mem_upper : Nat)
  | bootdev (biosdev slice part : Nat)
  | mmap (entries : List MmapEntry)
  | unknown (ty sz : Nat)
deriving DecidableEq, Repr

/-- The inner entry loop of the `MULTIBOOT_TAG_TYPE_MMAP` case: iterate from
`p` while `p < stop` (`stop` is `tag_start + tag->size`), stepping by
`stride` (`entry_size`). `fuel` counts loop iterations; `none` means the
fuel ran out before the loop finished. -/
def mmapLoop (m : List Nat) (stop stride : Nat) : Nat → Nat → Option (List MmapEntry)
  | _, 0 => none
  | p, fuel + 1 =>
    if p < stop then
      (mmapLoop m stop stride (p + stride) fuel).map (fun es => readMmapEntry m p :: es)
    else
      some []

/-- The `switch (tag->type)` body of `check_multiboot2`: decode the payload of
the tag at address `t` with type `ty` and size `sz`. String payloads sit at
offset 8 (offset 16 for a module's command line); the memory-map case runs
`mmapLoop` from the entries at offset 16 with stride `entry_size` (offset 8). -/
def decodeTag (m : List Nat) (t ty sz fuel : Nat) : Option TagRecord :=
  if ty = MULTIBOOT_TAG_TYPE_CMDLINE then
    some (.cmdline (readCString m (t + 8)))
  else if ty = MULTIBOOT_TAG_TYPE_BOOT_LOADER_NAME then
    some (.bootLoaderName (readCString m (t + 8)))
  else if ty = MULTIBOOT_TAG_TYPE_MODULE then
    some (.moduleTag (readU32 m (t + 8)) (readU32 m (t + 12)) (readCString m (t + 16)))
  else if ty = MULTIBOOT_TAG_TYPE_BASIC_MEMINFO then
    some (.basicMeminfo (readU32 m (t + 8)) (readU32 m (t + 12)))
  else if ty = MULTIBOOT_TAG_TYPE_BOOTDEV then
    some (.bootdev (readU32 m (t + 8)) (readU32 m (t + 12)) (readU32 m (t + 16)))
  else if ty = MULTIBOOT_TAG_TYPE_MMAP then
    (mmapLoop m (t + sz) (readU32 m (t + 8)) (t + 16) fuel).map TagRecord.mmap
  else
    some (.unknown ty sz)

/-- The main tag loop of `check_multiboot2`: at cursor `c` read the tag header
(`type` at `c`, `size` at `c + 4`); stop at an `End` tag, otherwise decode the
tag and advance by `pad8 size`. There is no bound check of any kind in the
loop; it stops only at an `End` tag or when the fuel runs out (`none`). -/
def parseLoop (m : List Nat) : Nat → Nat → Option (List TagRecord)
  | _, 0 => none
  | c, fuel + 1 =>
    if readU32 m c = MULTIBOOT_TAG_TYPE_END then
      some []
    else
      match decodeTag m c (readU32 m c) (readU32 m (c + 4)) fuel with
      | none => none
      | some r => (parseLoop m (c + pad8 (readU32 m (c + 4))) fuel).map (fun rest => r :: rest)

/-- The only failure the source can report while parsing: both `panicf` calls
of `check_multiboot2` (bad magic, unaligned address). -/
inductive ParseError where
  | MalformedBootInfo
deriving DecidableEq, Repr

/-- The `total_size` field at offset 0 of the structure. The source reads it
and prints it (`"Announced mbi size"`) but never uses it afterwards. -/
def announced_mbi_size (m : List Nat) (addr : Nat) : Nat := readU32 m addr

/-- Top level of `check_multiboot2(magic, addr)`: panic (here `Except.error`) if the magic
does not match or `addr & 7` is non-zero, otherwise run the tag loop starting
at `addr + 8`. `none` means the loops never finished within `fuel`. -/
def check_multiboot2 (magic addr : Nat) (m : List Nat) (fuel : Nat) :
    Option (Except ParseError (List TagRecord)) :=
  if magic ≠ MULTIBOOT2_BOOTLOADER_MAGIC then
    some (.error .MalformedBootInfo)
  else if addr &&& 7 ≠ 0 then
    some (.error .MalformedBootInfo)
  else
    (parseLoop m (addr + 8) fuel).map Except.ok

/-!
## Exception prologues and the default registry (`exception.c`)
-/

/-- The 23 default exception prologue functions of `exception.c`, one
constructor per source function (`de_prologue` .. `sx_prologue`). -/
inductive Prologue where
  | de | db | nmi | bp | of | br | ud | nm | df | ts | np | ss
  | gp | pf | mf | ac | mc | xm | ve | cp | hv | vc | sx
deriving DecidableEq, Repr

/-- What a prologue does when invoked: the text it emits via `panic` and the
`bool` it returns (resumability). -/
structure HandlerResult where
  emitted : String
  resumable : Bool
deriving DecidableEq, Repr

/-- The body of each prologue: `panic("<name>"); return false;`. The strings
are the exact `panic` arguments of the source. -/
def prologueRun : Prologue → HandlerResult
  | .de => ⟨"Division Error", false⟩
  | .db => ⟨"Debug", false⟩
  | .nmi => ⟨"Non-maskable Interrupt", false⟩
  | .bp => ⟨"Breakpoint", false⟩
  | .of => ⟨"Overflow", false⟩
  | .br => ⟨"Bound Range extended", false⟩
  | .ud => ⟨"Invalid Opcode", false⟩
  | .nm => ⟨"Device Not Available", false⟩
  | .df => ⟨"Double Fault", false⟩
  | .ts => ⟨"Invalid TSS", false⟩
  | .np => ⟨"Segment Not Present", false⟩
  | .ss => ⟨"Stack-Segment Fault", false⟩
  | .gp => ⟨"General Protection Fault", false⟩
  | .pf => ⟨"Page Fault", false⟩
  | .mf => ⟨"x87 Floating-Point Exception", false⟩
  | .ac => ⟨"Alignment Check", false⟩
  | .mc => ⟨"Machine Check", false⟩
  | .xm => ⟨"SIMD Floating-Point Exception", false⟩
  | .ve => ⟨"Virtualization Exception", false⟩
  | .cp => ⟨"Control Protection Exception", false⟩
  | .hv => ⟨"Hypervisor Injection Exception", false⟩
  | .vc => ⟨"VMM Communication Exception", false⟩
  | .sx => ⟨"Security Exception", false⟩

/-- Modelled from the spec: the vector numbers `int_de` .. `int_sx` come from
`exception.h`, which is not under `src/`; the values follow the spec's
descriptor table (§4.2) and the per-vector comments of `exception.c`. -/
def int_de : Nat := 0

def int_db : Nat := 1

def int_nmi : Nat := 2

def int_bp : Nat := 3

def int_of : Nat := 4

def int_br : Nat := 5

def int_ud : Nat := 6

def int_nm : Nat := 7

def int_df : Nat := 8

def int_ts : Nat := 10

def int_np : Nat := 11

def int_ss : Nat := 12

def int_gp : Nat := 13

def int_pf : Nat := 14

def int_mf : Nat := 16

def int_ac : Nat := 17

def int_mc : Nat := 18

def int_xm : Nat := 19

def int_ve : Nat := 20

def int_cp : Nat := 21

def int_hv : Nat := 28

def int_vc : Nat := 29

def int_sx : Nat := 30

/-- The 23 defined exception vectors (0..30 without the reserved 9 and 15
and the unused 22..27 and 31). -/
def definedVectors : List Nat :=
  [0, 1, 2, 3, 4, 5, 6, 7, 8, 10, 11, 12, 13, 14, 16, 17, 18, 19, 20, 21, 28, 29, 30]

/-- The plugbox registry: which prologue (if any) is bound to each vector. -/
def Registry : Type := Nat → Option Prologue

/-- Modelled from the spec: the plugbox store is not under `src/`;
`assign(vector, handler)` has overwrite semantics (§6). -/
def plugbox_assign (r : Registry) (v : Nat) (p : Prologue) : Registry :=
  fun i => if i = v then some p else r i

/-- The sequence of `plugbox_assign` calls that `exception_defaults` makes,
in source order: one per defined vector, binding its default prologue. -/
def defaultAssigns : List (Nat × Prologue) :=
  [(int_de, .de), (int_db, .db), (int_nmi, .nmi), (int_bp, .bp), (int_of, .of),
   (int_br, .br), (int_ud, .ud), (int_nm, .nm), (int_df, .df), (int_ts, .ts),
   (int_np, .np), (int_ss, .ss), (int_gp, .gp), (int_pf, .pf), (int_mf, .mf),
   (int_ac, .ac), (int_mc, .mc), (int_xm, .xm), (int_ve, .ve), (int_cp, .cp),
   (int_hv, .hv), (int_vc, .vc), (int_sx, .sx)]

/-- Apply a sequence of assignments to a registry, first to last. -/
def installAll (r : Registry) (l : List (Nat × Prologue)) : Registry :=
  l.foldl (fun a q => plugbox_assign a q.1 q.2) r

/-- `exception_defaults()`: perform the 23 `plugbox_assign` calls. -/
def exception_defaults (r : Registry) : Registry :=
  installAll r defaultAssigns

/-- Modelled from the spec: the Exception Descriptor Table (§4.2) is not
implemented under `src/`; names follow the spec's listing, in the full forms
used uniformly by the per-vector documentation comments of `exception.c`
("0 - Division Error", ..., "5 - Bound Range Exceeded", ...). -/
def descriptorName : Nat → Option String
  | 0 => some ("Division Error")
  | 1 => some ("Debug")
  | 2 => some ("Non-maskable Interrupt")
  | 3 => some ("Breakpoint")
  | 4 => some ("Overflow")
  | 5 => some ("Bound Range Exceeded")
  | 6 => some ("Invalid Opcode")
  | 7 => some ("Device Not Available")
  | 8 => some ("Double Fault")
  | 10 => some ("Invalid TSS")
  | 11 => some ("Segment Not Present")
  | 12 => some ("Stack-Segment Fault")
  | 13 => some ("General Protection Fault")
  | 14 => some ("Page Fault")
  | 16 => some ("x87 Floating-Point Exception")
  | 17 => some ("Alignment Check")
  | 18 => some ("Machine Check")
  | 19 => some ("SIMD Floating-Point Exception")
  | 20 => some ("Virtualization Exception")
  | 21 => some ("Control Protection Exception")
  | 28 => some ("Hypervisor Injection Exception")
  | 29 => some ("VMM Communication Exception")
  | 30 => some ("Security Exception")
  | _ => none

/-- Concrete stream for the C5 witness: an unknown tag of size 9 at `addr+8`
(padded advance 16), then an `End` tag at `addr+24`. -/
def memC5 : List Nat :=
  [0, 0, 0, 0, 0, 0, 0, 0,
   90, 0, 0, 0, 9, 0, 0, 0, 0, 0, 0, 0, 0, 0, 0, 0,
   0, 0, 0, 0, 8, 0, 0, 0]

/-- Concrete stream for the C1 counterexample: `total_size` announces 8
bytes (header only), but the stream carries a BasicMemInfo tag of padded
extent 16 followed by an `End` tag — cumulative consumption 24 > 8. -/
def memC1 : List Nat :=
  [8, 0, 0, 0, 0, 0, 0, 0,
   4, 0, 0, 0, 16, 0, 0, 0, 1, 0, 0, 0, 2, 0, 0, 0,
   0, 0, 0, 0, 8, 0, 0, 0]

/-- Concrete stream for the C9 witness: at cursor 0 sits a tag with type 5
and size 0. -/
def memC9 : List Nat := [5, 0, 0, 0, 0, 0, 0, 0]

/-- Concrete stream for the C2 counterexample: a MemoryMap tag at 8 with
`size = 24` and `entry_size = 0`. -/
def memC2 : List Nat :=
  [48, 0, 0, 0, 0, 0, 0, 0,
   6, 0, 0, 0, 24, 0, 0, 0, 0, 0, 0, 0, 0, 0, 0, 0]

/-- Concrete stream for the C6 and C2 witnesses: a MemoryMap tag at address 0
with `size = 40`, `entry_size = 24` and one entry
(`addr = 4096`, `len = 512`, `type = 7`). -/
def memC6 : List Nat :=
  [6, 0, 0, 0, 40, 0, 0, 0, 24, 0, 0, 0, 0, 0, 0, 0,
   0, 16, 0, 0, 0, 0, 0, 0, 0, 2, 0, 0, 0, 0, 0, 0, 7, 0, 0, 0, 0, 0, 0, 0]

/-!
## Helper lemmas
-/

/-- With stride 0 the entry loop never advances: it exhausts any fuel. -/
theorem mmapLoop_stride_zero (m : List Nat) (stop p : Nat) (h : p < stop) :
    ∀ fuel, mmapLoop m stop 0 p fuel = none := by
  intro fuel
  induction fuel with
  | zero => rfl
  | succ n ih => simp [mmapLoop, h, ih]

/-- Rounding-up division peels off one step. -/
theorem ceil_div_succ (stride : Nat) (hs : 0 < stride) (d : Nat) (hd : 1 ≤ d) :
    (d + stride - 1) / stride = (d - 1) / stride + 1 := by
  have h : d + stride - 1 = (d - 1) + stride := by omega
  rw [h, Nat.add_div_right _ hs]

/-- With positive stride and enough fuel the entry loop yields a list whose
length is the byte distance to `stop` divided by the stride, rounded up. -/
theorem mmapLoop_length (m : List Nat) (stride : Nat) (hs : 0 < stride) :
    ∀ (fuel stop p : Nat), stop - p < fuel →
      ∃ es, mmapLoop m stop stride p fuel = some es ∧
        es.length = (stop - p + stride - 1) / stride := by
  intro fuel
  induction fuel with
  | zero => intro stop p h; omega
  | succ n ih =>
    intro stop p h
    by_cases hp : p < stop
    · obtain ⟨es, hes, hlen⟩ := ih stop (p + stride) (by omega)
      refine ⟨readMmapEntry m p :: es, by simp [mmapLoop, hp, hes], ?_⟩
      rw [List.length_cons, ceil_div_succ stride hs _ (by omega), hlen]
      by_cases hds : stride ≤ stop - p
      · have hnum : stop - (p + stride) + stride - 1 = stop - p - 1 := by omega
        rw [hnum]
      · have h1 : stop - (p + stride) + stride - 1 = stride - 1 := by omega
        rw [h1, Nat.div_eq_of_lt (by omega), Nat.div_eq_of_lt (by omega)]
    · refine ⟨[], by simp [mmapLoop, hp], ?_⟩
      have h0 : stop - p = 0 := by omega
      rw [h0, Nat.zero_add, Nat.div_eq_of_lt (by omega), List.length_nil]

/-- With positive stride, a stop address exactly `k` strides away, and enough
fuel, the entry loop decodes exactly the `k` entries at stride offsets. -/
theorem mmapLoop_range (m : List Nat) (stride : Nat) (hs : 0 < stride) :
    ∀ (k fuel p : Nat), k < fuel →
      mmapLoop m (p + stride * k) stride p fuel =
        some ((List.range k).map (fun i => readMmapEntry m (p + stride * i))) := by
  intro k
  induction k with
  | zero =>
    intro fuel p h
    match fuel, h with
    | f + 1, _ => simp [mmapLoop]
  | succ n ih =>
    intro fuel p h
    match fuel, h with
    | f + 1, h =>
      have hpos : 0 < stride * (n + 1) := Nat.mul_pos hs n.succ_pos
      have hlt : p < p + stride * (n + 1) := by omega
      have hstop : p + stride * (n + 1) = (p + stride) + stride * n := by ring
      rw [List.range_succ_eq_map, List.map_cons, List.map_map]
      simp only [mmapLoop, if_pos hlt]
      rw [hstop, ih f (p + stride) (by omega)]
      simp only [Option.map_some']
      congr 1
      congr 1
      apply List.map_congr_left
      intro i _
      simp only [Function.comp_apply]
      congr 1
      simp only [Nat.succ_eq_add_one]
      ring

/-- The registry built by a sequence of assignments, read at `v`: the last
assignment to `v` wins; with none, the initial registry value stands. -/
theorem installAll_apply (l : List (Nat × Prologue)) :
    ∀ (r : Registry) (v : Nat),
      installAll r l v =
        (l.reverse.find? (fun q => q.1 == v)).elim (r v) (fun q => some q.2) := by
  induction l with
  | nil => intro r v; rfl
  | cons q t ih =>
    intro r v
    have step : installAll r (q :: t) v = installAll (plugbox_assign r q.1 q.2) t v := rfl
    rw [step, ih, List.reverse_cons, List.find?_append]
    cases hf : t.reverse.find? (fun x => x.1 == v) with
    | some x => simp
    | none =>
      by_cases hv : q.1 = v
      · simp [List.find?, hv, plugbox_assign]
      · have hv2 : v ≠ q.1 := fun he => hv he.symm
        have hb : (q.1 == v) = false := beq_eq_false_iff_ne.mpr hv
        simp [List.find?, plugbox_assign, hb, hv2]

/-- Replaying the same assignment sequence leaves the registry unchanged. -/
theorem installAll_twice (l : List (Nat × Prologue)) (r : Registry) (v : Nat) :
    installAll (installAll r l) l v = installAll r l v := by
  simp only [installAll_apply]
  cases hf : l.reverse.find? (fun q => q.1 == v) <;> simp

/-!
## Claim theorems: exception registry
-/

/-- C7: `exception_defaults` never installs a handler for the reserved
vectors 9 and 15 — no assignment in its sequence targets them and the
registry entries for 9 and 15 are left untouched — while each of the 23
defined vectors is the target of exactly one assignment. -/
theorem exception_defaults_reserved_vectors :
    defaultAssigns.countP (fun q => q.1 == 9) = 0 ∧
    defaultAssigns.countP (fun q => q.1 == 15) = 0 ∧
    (definedVectors.all fun v => defaultAssigns.countP (fun q => q.1 == v) == 1) = true ∧
    definedVectors.length = 23 ∧
    ∀ r : Registry, exception_defaults r 9 = r 9 ∧ exception_defaults r 15 = r 15 := by
  refine ⟨by decide, by decide, by decide, by decide, ?_⟩
  intro r
  have h9 : defaultAssigns.reverse.find? (fun q => q.1 == 9) = none := by decide
  have h15 : defaultAssigns.reverse.find? (fun q => q.1 == 15) = none := by decide
  constructor
  · show installAll r defaultAssigns 9 = r 9
    rw [installAll_apply, h9]
    rfl
  · show installAll r defaultAssigns 15 = r 15
    rw [installAll_apply, h15]
    rfl

/-- C8: installing the defaults twice leaves the registry in the same
observable state as installing them once — every `plugbox_assign` overwrites,
so the second pass rebinds each defined vector to the same prologue. -/
theorem exception_defaults_idempotent :
    ∀ (r : Registry) (v : Nat),
      exception_defaults (exception_defaults r) v = exception_defaults r v := by
  intro r v
  exact installAll_twice defaultAssigns r v

/-- C3 (code bug, evaluated at the failing vector): the default handler for
vector 5 emits `"Bound Range extended"`, which differs from the descriptor
name `"Bound Range Exceeded"`; every installed default reports
non-resumable, and every defined vector other than 5 emits exactly its
descriptor name. -/
theorem br_handler_name_mismatch :
    (prologueRun Prologue.br).emitted = "Bound Range extended" ∧
    descriptorName int_br = some ("Bound Range Exceeded") ∧
    (prologueRun Prologue.br).emitted ≠ "Bound Range Exceeded" ∧
    (prologueRun Prologue.br).resumable = false ∧
    (defaultAssigns.all fun q => (prologueRun q.2).resumable == false) = true ∧
    (defaultAssigns.all fun q =>
      (q.1 == int_br) || (descriptorName q.1 == some (prologueRun q.2).emitted)) = true := by
  refine ⟨rfl, rfl, by decide, rfl, by decide, by decide⟩

/-!
## Claim theorems: boot info parser
-/

/-- The mask trick of the cursor advance: for any value below `2^32`,
`x &&& 0xFFFFFFF8` clears the low three bits, rounding down to a multiple
of 8. -/
theorem and_mask_eq_round_down (x : Nat) (hx : x < 2 ^ 32) :
    x &&& 0xFFFFFFF8 = 8 * (x / 8) := by
  have hmask : (0xFFFFFFF8 : Nat) = (2 ^ 32 - 1) ^^^ (2 ^ 3 - 1) := by decide
  have hrhs : 8 * (x / 8) = (x >>> 3) <<< 3 := by
    rw [Nat.shiftRight_eq_div_pow, Nat.shiftLeft_eq]
    norm_num [Nat.mul_comm]
  rw [hmask, hrhs]
  apply Nat.eq_of_testBit_eq
  intro i
  rw [Nat.testBit_and, Nat.testBit_xor, Nat.testBit_two_pow_sub_one,
    Nat.testBit_two_pow_sub_one, Nat.testBit_shiftLeft, Nat.testBit_shiftRight]
  rcases Nat.lt_or_ge i 3 with h3 | h3
  · have h32 : i < 32 := by omega
    simp [h3, h32, Nat.not_le.mpr h3]
  · rcases Nat.lt_or_ge i 32 with h32 | h32
    · have hi : 3 + (i - 3) = i := by omega
      simp [h32, Nat.not_lt.mpr h3, h3, hi]
    · have hbit : x.testBit i = false :=
        Nat.testBit_lt_two_pow (lt_of_lt_of_le hx (Nat.pow_le_pow_right (by norm_num) h32))
      have hi : 3 + (i - 3) = i := by omega
      simp [Nat.not_lt.mpr h32, Nat.not_lt.mpr h3, h3, hi, hbit]

/-- C5: padding law — the tag loop's advance `pad8` is the tag size rounded
up to the next multiple of 8 (for any size whose increment does not wrap the
32-bit addition); in particular sizes 9 and 16 both advance the cursor by 16;
and whenever the loop consumes a non-End tag, the rest of the parse resumes
exactly at `cursor + pad8 size`. -/
theorem padding_law :
    (∀ s : Nat, s + 7 < 2 ^ 32 → pad8 s = 8 * ((s + 7) / 8)) ∧
    pad8 9 = 16 ∧ pad8 16 = 16 ∧
    (∀ (m : List Nat) (c fuel : Nat) (r : TagRecord) (rest : List TagRecord),
      readU32 m c ≠ MULTIBOOT_TAG_TYPE_END →
      parseLoop m c (fuel + 1) = some (r :: rest) →
      parseLoop m (c + pad8 (readU32 m (c + 4))) fuel = some rest) := by
  refine ⟨?_, by decide, by decide, ?_⟩
  · intro s hs
    unfold pad8
    rw [Nat.mod_eq_of_lt (by norm_num at hs ⊢; omega)]
    exact and_mask_eq_round_down (s + 7) hs
  · intro m c fuel r rest hty hp
    simp only [parseLoop, if_neg hty] at hp
    cases hd : decodeTag m c (readU32 m c) (readU32 m (c + 4)) fuel with
    | none => rw [hd] at hp; cases hp
    | some r2 =>
      rw [hd] at hp
      cases hq : parseLoop m (c + pad8 (readU32 m (c + 4))) fuel with
      | none => rw [hq] at hp; cases hp
      | some rest2 =>
        rw [hq] at hp
        simp only [Option.map_some', Option.some.injEq, List.cons.injEq] at hp
        rw [hp.2]

/-- Witness for `padding_law` at concrete inputs. -/
theorem padding_law_witness :
    (9 + 7 < 2 ^ 32 ∧ pad8 9 = 8 * ((9 + 7) / 8)) ∧
    (readU32 memC5 8 ≠ MULTIBOOT_TAG_TYPE_END ∧
     parseLoop memC5 8 (2 + 1) = some (TagRecord.unknown 90 9 :: []) ∧
     parseLoop memC5 (8 + pad8 (readU32 memC5 12)) 2 = some []) :=
  ⟨⟨by decide, padding_law.1 9 (by decide)⟩,
   ⟨by decide, by rfl,
    padding_law.2.2.2 memC5 8 2 (TagRecord.unknown 90 9) [] (by decide) (by rfl)⟩⟩

/-- C4: whenever the magic differs from the bootloader constant or the
address has a low bit of its low 3 bits set, `check_multiboot2` fails with
`MalformedBootInfo`; the result is the same as with empty memory, so nothing
of the structure is read. -/
theorem check_preconditions_fatal (magic addr : Nat) (m : List Nat) (fuel : Nat)
    (h : magic ≠ MULTIBOOT2_BOOTLOADER_MAGIC ∨ addr &&& 7 ≠ 0) :
    check_multiboot2 magic addr m fuel = some (.error .MalformedBootInfo) ∧
    check_multiboot2 magic addr m fuel = check_multiboot2 magic addr [] fuel := by
  by_cases hm : magic = MULTIBOOT2_BOOTLOADER_MAGIC
  · have ha : addr &&& 7 ≠ 0 := by tauto
    constructor <;> simp [check_multiboot2, hm, ha]
  · constructor <;> simp [check_multiboot2, hm]

/-- Witness for `check_preconditions_fatal` at a wrong magic value. -/
theorem check_preconditions_fatal_witness :
    ((0 : Nat) ≠ MULTIBOOT2_BOOTLOADER_MAGIC ∨ (1 : Nat) &&& 7 ≠ 0) ∧
    (check_multiboot2 0 1 [] 3 = some (.error .MalformedBootInfo) ∧
     check_multiboot2 0 1 [] 3 = check_multiboot2 0 1 [] 3) :=
  ⟨Or.inl (by decide), check_preconditions_fatal 0 1 [] 3 (Or.inl (by decide))⟩

/-- C1 (amended): the parser performs no `total_size` bound check — once the
magic and alignment preconditions pass, no error can arise; an error result
implies one of the two preconditions failed. -/
theorem parse_error_only_from_preconditions (magic addr : Nat) (m : List Nat)
    (fuel : Nat) (e : ParseError)
    (h : check_multiboot2 magic addr m fuel = some (.error e)) :
    magic ≠ MULTIBOOT2_BOOTLOADER_MAGIC ∨ addr &&& 7 ≠ 0 := by
  by_cases hm : magic = MULTIBOOT2_BOOTLOADER_MAGIC
  · by_cases ha : addr &&& 7 = 0
    · exfalso
      unfold check_multiboot2 at h
      rw [if_neg (by simp [hm]), if_neg (by simp [ha])] at h
      cases hp : parseLoop m (addr + 8) fuel with
      | none => rw [hp] at h; cases h
      | some l => rw [hp] at h; cases h
    · exact Or.inr ha
  · exact Or.inl hm

/-- Witness for `parse_error_only_from_preconditions` at a wrong magic. -/
theorem parse_error_only_from_preconditions_witness :
    check_multiboot2 0 0 [] 1 = some (.error .MalformedBootInfo) ∧
    ((0 : Nat) ≠ MULTIBOOT2_BOOTLOADER_MAGIC ∨ (0 : Nat) &&& 7 ≠ 0) :=
  ⟨by rfl, parse_error_only_from_preconditions 0 0 [] 1 .MalformedBootInfo (by rfl)⟩

/-- C1 counterexample: a tag's padded extent pushes cumulative consumption
(8 header bytes + 16 tag bytes = 24) past the announced `total_size` of 8,
yet the parse succeeds — it does not fail with `MalformedBootInfo`. -/
theorem parse_overrun_counterexample :
    announced_mbi_size memC1 0 = 8 ∧
    8 + pad8 (readU32 memC1 12) = 24 ∧
    24 > announced_mbi_size memC1 0 ∧
    check_multiboot2 MULTIBOOT2_BOOTLOADER_MAGIC 0 memC1 10 =
      some (.ok [TagRecord.basicMeminfo 1 2]) :=
  ⟨by rfl, by rfl, by decide, by rfl⟩

/-- C9 (implicit): a non-End tag whose size field is 0 has padded advance
`(0 + 7) & ~7 = 0`; the cursor does not move and the tag loop exhausts any
fuel — it never terminates. -/
theorem tag_loop_zero_size_diverges (m : List Nat) (c : Nat)
    (hty : readU32 m c ≠ MULTIBOOT_TAG_TYPE_END) (hsz : readU32 m (c + 4) = 0) :
    pad8 (readU32 m (c + 4)) = 0 ∧
    c + pad8 (readU32 m (c + 4)) = c ∧
    ∀ fuel, parseLoop m c fuel = none := by
  have hp0 : pad8 (readU32 m (c + 4)) = 0 := by rw [hsz]; decide
  refine ⟨hp0, by simp [hp0], ?_⟩
  intro fuel
  induction fuel with
  | zero => rfl
  | succ n ih =>
    simp only [parseLoop, if_neg hty]
    cases hd : decodeTag m c (readU32 m c) (readU32 m (c + 4)) n with
    | none => rfl
    | some r => simp [hp0, ih]

/-- Witness for `tag_loop_zero_size_diverges` at a concrete stream. -/
theorem tag_loop_zero_size_diverges_witness :
    readU32 memC9 0 ≠ MULTIBOOT_TAG_TYPE_END ∧
    readU32 memC9 (0 + 4) = 0 ∧
    parseLoop memC9 0 5 = none :=
  ⟨by decide, by rfl,
   (tag_loop_zero_size_diverges memC9 0 (by decide) (by rfl)).2.2 5⟩

/-- C2 (amended): for a MemoryMap tag whose `entry_size` is 0 and whose
payload is non-empty, the entry loop never terminates (there is no
`ZeroStride` check); for `entry_size > 0` the entry loop terminates given
enough fuel. -/
theorem mmap_entry_loop_behavior (m : List Nat) (t sz fuel : Nat) :
    (readU32 m (t + 8) = 0 → t + 16 < t + sz →
      decodeTag m t MULTIBOOT_TAG_TYPE_MMAP sz fuel = none) ∧
    (0 < readU32 m (t + 8) → sz - 16 < fuel →
      (decodeTag m t MULTIBOOT_TAG_TYPE_MMAP sz fuel).isSome = true) := by
  constructor
  · intro h0 hlt
    show (mmapLoop m (t + sz) (readU32 m (t + 8)) (t + 16) fuel).map TagRecord.mmap = none
    rw [h0, mmapLoop_stride_zero m (t + sz) (t + 16) hlt fuel]
    rfl
  · intro h0 hf
    show ((mmapLoop m (t + sz) (readU32 m (t + 8)) (t + 16) fuel).map TagRecord.mmap).isSome = true
    obtain ⟨es, hes, _⟩ :=
      mmapLoop_length m (readU32 m (t + 8)) h0 fuel (t + sz) (t + 16) (by omega)
    rw [hes]
    rfl

/-- C2 counterexample: on a MemoryMap tag with `entry_size = 0` the parse
does not fail with any error — it spins in the entry loop (here: exhausts
its fuel with no result), and there is no `ZeroStride` failure anywhere in
the code. -/
theorem zero_stride_no_failure :
    readU32 memC2 16 = 0 ∧
    check_multiboot2 MULTIBOOT2_BOOTLOADER_MAGIC 0 memC2 50 = none :=
  ⟨by rfl, by rfl⟩

/-- Witness for `mmap_entry_loop_behavior`: the zero-stride branch on the
`memC2` tag, the terminating branch on the `memC6` tag. -/
theorem mmap_entry_loop_behavior_witness :
    (readU32 memC2 (8 + 8) = 0 ∧ 8 + 16 < 8 + 24 ∧
     decodeTag memC2 8 MULTIBOOT_TAG_TYPE_MMAP 24 7 = none) ∧
    (0 < readU32 memC6 (0 + 8) ∧ 40 - 16 < 30 ∧
     (decodeTag memC6 0 MULTIBOOT_TAG_TYPE_MMAP 40 30).isSome = true) :=
  ⟨⟨by rfl, by decide, (mmap_entry_loop_behavior memC2 8 24 7).1 (by rfl) (by decide)⟩,
   ⟨by decide, by decide,
    (mmap_entry_loop_behavior memC6 0 40 30).2 (by decide) (by decide)⟩⟩

/-- C6: a MemoryMap tag with `entry_size = 24` and `size = 16 + 24 * N`
decodes to exactly the `N` entries read at stride-24 offsets from the
payload start `tag + 16`, each with the `addr`/`len`/`type` fields read at
its own offsets. -/
theorem mmap_decode_exact (m : List Nat) (t N fuel : Nat)
    (hes : readU32 m (t + 8) = 24) (hfuel : N < fuel) :
    decodeTag m t MULTIBOOT_TAG_TYPE_MMAP (16 + 24 * N) fuel =
      some (TagRecord.mmap
        ((List.range N).map (fun i => readMmapEntry m (t + 16 + 24 * i)))) := by
  show (mmapLoop m (t + (16 + 24 * N)) (readU32 m (t + 8)) (t + 16) fuel).map
      TagRecord.mmap = _
  rw [hes]
  have hstop : t + (16 + 24 * N) = (t + 16) + 24 * N := by ring
  rw [hstop, mmapLoop_range m 24 (by norm_num) N fuel (t + 16) hfuel]
  rfl

/-- Witness for `mmap_decode_exact` on the one-entry stream `memC6`. -/
theorem mmap_decode_exact_witness :
    readU32 memC6 (0 + 8) = 24 ∧ 1 < 10 ∧
    decodeTag memC6 0 MULTIBOOT_TAG_TYPE_MMAP (16 + 24 * 1) 10 =
      some (TagRecord.mmap
        ((List.range 1).map (fun i => readMmapEntry memC6 (0 + 16 + 24 * i)))) :=
  ⟨by rfl, by decide, mmap_decode_exact memC6 0 1 10 (by rfl) (by decide)⟩

/-- C10 (implicit): when the payload length `stop - p` is not a multiple of
the stride, the entry loop still starts an entry strictly before `stop`
whose extent crosses past it, and the number of decoded entries is the
ceiling of the payload length divided by the stride — one more than the
floor. -/
theorem mmap_loop_ceiling_count (m : List Nat) (stop stride p fuel : Nat)
    (hs : 0 < stride) (hp : p < stop) (hnd : ¬ stride ∣ (stop - p))
    (hf : stop - p < fuel) :
    ∃ es, mmapLoop m stop stride p fuel = some es ∧
      es.length = (stop - p + stride - 1) / stride ∧
      es.length = (stop - p) / stride + 1 ∧
      p + stride * (es.length - 1) < stop ∧
      stop < p + stride * (es.length - 1) + stride := by
  obtain ⟨es, hes, hlen⟩ := mmapLoop_length m stride hs fuel stop p hf
  have hd : stride * ((stop - p) / stride) + (stop - p) % stride = stop - p :=
    Nat.div_add_mod _ _
  have hrlt : (stop - p) % stride < stride := Nat.mod_lt _ hs
  have hrne : (stop - p) % stride ≠ 0 := fun h => hnd (Nat.dvd_of_mod_eq_zero h)
  have hceil : (stop - p + stride - 1) / stride = (stop - p) / stride + 1 := by
    have e2 : stride * ((stop - p) / stride + 1) =
        stride * ((stop - p) / stride) + stride := by ring
    have e1 : stop - p + stride - 1 =
        ((stop - p) % stride - 1) + stride * ((stop - p) / stride + 1) := by omega
    rw [e1, Nat.add_mul_div_left _ _ hs, Nat.div_eq_of_lt (by omega), Nat.zero_add]
  have hlen2 : es.length = (stop - p) / stride + 1 := by rw [hlen, hceil]
  refine ⟨es, hes, hlen, hlen2, ?_, ?_⟩
  · rw [hlen2, Nat.add_sub_cancel]
    omega
  · rw [hlen2, Nat.add_sub_cancel]
    omega

/-- Witness for `mmap_loop_ceiling_count`: stop 30, stride 24, start 16 —
payload 14 bytes, one entry decoded whose extent ends at 40 > 30. -/
theorem mmap_loop_ceiling_count_witness :
    0 < 24 ∧ 16 < 30 ∧ ¬ (24 ∣ (30 - 16)) ∧ 30 - 16 < 100 ∧
    ∃ es, mmapLoop [] 30 24 16 100 = some es ∧
      es.length = (30 - 16 + 24 - 1) / 24 ∧
      es.length = (30 - 16) / 24 + 1 ∧
      16 + 24 * (es.length - 1) < 30 ∧
      30 < 16 + 24 * (es.length - 1) + 24 :=
  ⟨by decide, by decide, by decide, by decide,
   mmap_loop_ceiling_count [] 30 24 16 100 (by decide) (by decide) (by decide)
     (by decide)⟩
